import Mathlib

/-!
Shallow embedding of `src/Plane_carbon_emissions.py`.

The script uses the `pint` unit library: every value is a quantity
(a numeric magnitude together with a units container mapping unit
names to integer exponents).  We model magnitudes by exact rationals
and the units container by a record of integer exponents over the
nine unit names the script uses (kg, lb, metric_ton, gal, mi, hr,
yr, month, week).  Unit conversion (`.to`) checks dimensional
equality (pint's DimensionalityError is modelled as `none`) and
rescales the magnitude by the ratio of the SI scale factors.
Division by a quantity of zero magnitude raises ZeroDivisionError in
Python; we model it by `Quantity.div?` returning `none`.
-/

namespace PlaneCarbon

/-- A physical dimension: exponents of mass, length and time
(pint derives a gallon's dimension as length cubed). -/
structure Dim where
  mass : ℤ
  length : ℤ
  time : ℤ
deriving DecidableEq, Repr

/-- A pint units container restricted to the nine unit names the
script mentions: integer exponent per unit name. -/
structure UnitsC where
  kg : ℤ
  lb : ℤ
  metricTon : ℤ
  gal : ℤ
  mi : ℤ
  hr : ℤ
  yr : ℤ
  month : ℤ
  week : ℤ
deriving DecidableEq, Repr

/-- The dimensionless (empty) units container. -/
def UnitsC.one : UnitsC := ⟨0, 0, 0, 0, 0, 0, 0, 0, 0⟩

/-- Product of units containers: exponents add (pint cancels equal
unit names automatically, which is exactly componentwise addition). -/
def UnitsC.mul (a b : UnitsC) : UnitsC :=
  ⟨a.kg + b.kg, a.lb + b.lb, a.metricTon + b.metricTon, a.gal + b.gal,
   a.mi + b.mi, a.hr + b.hr, a.yr + b.yr, a.month + b.month, a.week + b.week⟩

/-- Quotient of units containers: exponents subtract. -/
def UnitsC.div (a b : UnitsC) : UnitsC :=
  ⟨a.kg - b.kg, a.lb - b.lb, a.metricTon - b.metricTon, a.gal - b.gal,
   a.mi - b.mi, a.hr - b.hr, a.yr - b.yr, a.month - b.month, a.week - b.week⟩

/-- Dimension of a units container: kg, lb and metric tons are mass;
gallons are length cubed; miles are length; hr, yr, month, week are
time. -/
def dimOf (u : UnitsC) : Dim :=
  ⟨u.kg + u.lb + u.metricTon,
   3 * u.gal + u.mi,
   u.hr + u.yr + u.month + u.week⟩

/-- Scale factor of each unit to SI base units (kg, m, s), as exact
rationals taken from pint's registry: lb = 0.45359237 kg, metric ton
= 1000 kg, US gallon = 231 in^3 = 0.003785411784 m^3, mile =
1609.344 m, hour = 3600 s, (Julian) year = 365.25 days = 31557600 s,
month = year/12, week = 604800 s. -/
def scaleOf (u : UnitsC) : ℚ :=
  (1 : ℚ) ^ u.kg * (45359237 / 100000000 : ℚ) ^ u.lb * (1000 : ℚ) ^ u.metricTon *
    (3785411784 / 1000000000000 : ℚ) ^ u.gal * (1609344 / 1000 : ℚ) ^ u.mi *
    (3600 : ℚ) ^ u.hr * (31557600 : ℚ) ^ u.yr * (2629800 : ℚ) ^ u.month *
    (604800 : ℚ) ^ u.week

/-- A pint quantity: a rational magnitude `m` (accessed as `.m` in
the script) and a units container. -/
structure Quantity where
  m : ℚ
  u : UnitsC
deriving DecidableEq, Repr

/-- Product of two quantities: magnitudes multiply, units multiply. -/
def Quantity.mul (a b : Quantity) : Quantity := ⟨a.m * b.m, a.u.mul b.u⟩

/-- Quotient of two quantities, in the defensive total form (rational
division, so a zero divisor yields magnitude 0 instead of an error).
Used only where the script divides by a hard-coded nonzero constant;
the fallible `Quantity.div?` below models Python's ZeroDivisionError. -/
def Quantity.div (a b : Quantity) : Quantity := ⟨a.m / b.m, a.u.div b.u⟩

/-- Quotient of two quantities as Python computes it: dividing by a
quantity whose magnitude is zero raises ZeroDivisionError (`none`). -/
def Quantity.div? (a b : Quantity) : Option Quantity :=
  if b.m = 0 then none else some (a.div b)

/-- A bare number times a quantity (e.g. `2 * combat_range`,
`9.75 * unit.kg`): the magnitude scales, the units are unchanged. -/
def Quantity.smul (c : ℚ) (a : Quantity) : Quantity := ⟨c * a.m, a.u⟩

/-- pint's `.to(target)`: requires equal dimensions (else
DimensionalityError, modelled as `none`) and rescales the magnitude
by the ratio of SI scale factors. -/
def Quantity.to (a : Quantity) (t : UnitsC) : Option Quantity :=
  if dimOf a.u = dimOf t then some ⟨a.m * scaleOf a.u / scaleOf t, t⟩ else none

/-- The magnitude-one quantity `unit.kg`. -/
def qKg : Quantity := ⟨1, { UnitsC.one with kg := 1 }⟩

/-- The magnitude-one quantity `unit.lb`. -/
def qLb : Quantity := ⟨1, { UnitsC.one with lb := 1 }⟩

/-- The magnitude-one quantity `unit.metric_ton`. -/
def qTon : Quantity := ⟨1, { UnitsC.one with metricTon := 1 }⟩

/-- The magnitude-one quantity `unit.gal`. -/
def qGal : Quantity := ⟨1, { UnitsC.one with gal := 1 }⟩

/-- The magnitude-one quantity `unit.mi`. -/
def qMi : Quantity := ⟨1, { UnitsC.one with mi := 1 }⟩

/-- The magnitude-one quantity `unit.h` (also written `unit.hr`). -/
def qHr : Quantity := ⟨1, { UnitsC.one with hr := 1 }⟩

/-- The magnitude-one quantity `unit.yr`. -/
def qYr : Quantity := ⟨1, { UnitsC.one with yr := 1 }⟩

/-- Source line 20: `KG_CO2_PER_GAL_JP8 = 9.75 * unit.kg / unit.gal`
(9.75 = 39/4). -/
def KG_CO2_PER_GAL_JP8 : Quantity := (Quantity.smul (39 / 4) qKg).div qGal

/-- Source line 21: `JP8_DENSITY = 6.75 * unit.lb / unit.gal`
(6.75 = 27/4). -/
def JP8_DENSITY : Quantity := (Quantity.smul (27 / 4) qLb).div qGal

/-- Source lines 24-36: `calculate_co2_per_hour(fuel_cap,
combat_range, cruise_speed)` returns
`(fuel_cap / (2 * combat_range)) * cruise_speed * KG_CO2_PER_GAL_JP8`;
the division raises ZeroDivisionError when `2 * combat_range` has
magnitude zero. -/
def calculate_co2_per_hour (fuel_cap combat_range cruise_speed : Quantity) :
    Option Quantity :=
  (fuel_cap.div? (Quantity.smul 2 combat_range)).map
    (fun q => (q.mul cruise_speed).mul KG_CO2_PER_GAL_JP8)

/-- Source lines 40-41: the `PlaneCharacteristics` namedtuple. -/
structure PlaneCharacteristics where
  name : String
  fuel_cap : Quantity
  combat_range : Quantity
  cruise_speed : Quantity
  mission_length : Quantity
deriving DecidableEq, Repr

/-- Source lines 44-50: the hardcoded five-plane list.  The B-1, B-2,
F-15 and F-35 fuel loads are given as masses divided by
`JP8_DENSITY` (a nonzero constant, so the total `Quantity.div`
coincides with Python's division here). -/
def planes : List PlaneCharacteristics :=
  [⟨"B-52", Quantity.smul 47975 qGal, Quantity.smul 8800 qMi,
      (Quantity.smul 509 qMi).div qHr, Quantity.smul 34 qHr⟩,
   ⟨"B-1", (Quantity.smul 265274 qLb).div JP8_DENSITY, Quantity.smul 3444 qMi,
      (Quantity.smul 647 qMi).div qHr, Quantity.smul 12 qHr⟩,
   ⟨"B-2", (Quantity.smul 167000 qLb).div JP8_DENSITY, Quantity.smul 6900 qMi,
      (Quantity.smul 560 qMi).div qHr, Quantity.smul 31 qHr⟩,
   ⟨"F-15", (Quantity.smul 13455 qLb).div JP8_DENSITY, Quantity.smul 1221 qMi,
      (Quantity.smul 570 qMi).div qHr, Quantity.smul 2 qHr⟩,
   ⟨"F-35", (Quantity.smul 18250 qLb).div JP8_DENSITY, Quantity.smul 770 qMi,
      (Quantity.smul 647 qMi).div qHr, Quantity.smul 2 qHr⟩]

/-- Source line 53: the `CO2Emissions` namedtuple. -/
structure CO2Emissions where
  co2_per_hour : Quantity
  co2_per_mission : Quantity
  co2_comparison : Quantity
deriving DecidableEq, Repr

/-- Source line 59: `KG_CO2_GAL = 8.9 * unit.kg / unit.gal`
(8.9 = 89/10). -/
def KG_CO2_GAL : Quantity := (Quantity.smul (89 / 10) qKg).div qGal

/-- Source line 60: `GALLONS_PER_YEAR_DRIVING = 489 * unit.gal / unit.yr`. -/
def GALLONS_PER_YEAR_DRIVING : Quantity := (Quantity.smul 489 qGal).div qYr

/-- The units container `unit.metric_ton / unit.yr`. -/
def tonPerYrU : UnitsC := { UnitsC.one with metricTon := 1, yr := -1 }

/-- The units container `unit.metric_ton / unit.hour`. -/
def tonPerHourU : UnitsC := { UnitsC.one with metricTon := 1, hr := -1 }

/-- Source line 61: `CO2_TONS_YEAR_DRIVING = (KG_CO2_GAL *
GALLONS_PER_YEAR_DRIVING).to(unit.metric_ton / unit.yr)`.  The
conversion succeeds (both sides are mass/time), so the `getD`
default is never taken. -/
def CO2_TONS_YEAR_DRIVING : Quantity :=
  ((KG_CO2_GAL.mul GALLONS_PER_YEAR_DRIVING).to tonPerYrU).getD ⟨0, UnitsC.one⟩

/-- The body of the loop at source lines 64-71, parameterised by the
annual-driving reference so its zero case can be stated:
`co2_hour = calculate_co2_per_hour(...).to(metric_ton/hour)`,
`co2_mission = co2_hour * mission_length`,
`co2_comparison = co2_mission / CO2_TONS_YEAR_DRIVING`,
packed into a `CO2Emissions`.  Any raised error propagates (`none`). -/
def computeEmissions (annual : Quantity) (p : PlaneCharacteristics) :
    Option CO2Emissions :=
  (calculate_co2_per_hour p.fuel_cap p.combat_range p.cruise_speed).bind
    (fun raw => (raw.to tonPerHourU).bind
      (fun co2_hour =>
        let co2_mission := co2_hour.mul p.mission_length
        (co2_mission.div? annual).map
          (fun cmp => ⟨co2_hour, co2_mission, cmp⟩)))

/-- The three reporting units of the print branch. -/
inductive ReportUnit where
  | years
  | months
  | weeks
deriving DecidableEq, Repr

/-- Source lines 75-80: the branch on `co2_comparison.m` choosing the
reporting unit (`> 1` years, `> 1/12` months, otherwise weeks). -/
def selectUnit (r : ℚ) : ReportUnit :=
  if 1 < r then ReportUnit.years
  else if 1 / 12 < r then ReportUnit.months
  else ReportUnit.weeks

/-- Python dict assignment `d[k] = v`: overwrite the value in place
if the key is present (keeping its position), else append. -/
def dictInsert {β : Type} : List (String × β) → String → β → List (String × β)
  | [], k, v => [(k, v)]
  | (k0, v0) :: t, k, v =>
    if k0 = k then (k0, v) :: t else (k0, v0) :: dictInsert t k v

/-- Python dict lookup `d[k]`. -/
def lookupTbl {β : Type} : List (String × β) → String → Option β
  | [], _ => none
  | (k0, v0) :: t, k => if k0 = k then some v0 else lookupTbl t k

/-- The loop at source lines 64-71 threading the `plane_emissions`
dict: each iteration computes the plane's emissions (errors abort
the run) and stores them under `plane.name`. -/
def emissionsLoop (annual : Quantity) :
    List PlaneCharacteristics → List (String × CO2Emissions) →
      Option (List (String × CO2Emissions))
  | [], tbl => some tbl
  | p :: ps, tbl =>
    match computeEmissions annual p with
    | none => none
    | some e => emissionsLoop annual ps (dictInsert tbl p.name e)

/-- The `plane_emissions` dict built from an input sequence: the loop started
from the empty dict. -/
def buildTable (annual : Quantity) (ps : List PlaneCharacteristics) :
    Option (List (String × CO2Emissions)) :=
  emissionsLoop annual ps []

/-- Source line 94: `plane_names = list(data.keys())`, the x-axis of
both bar charts. -/
def plot_plane_names (data : List (String × CO2Emissions)) : List String :=
  data.map Prod.fst

/-- The emissions of a plane when the computation succeeds (the
default is never consulted in the lemmas below, which always carry a
success hypothesis). -/
def computeD (annual : Quantity) (p : PlaneCharacteristics) : CO2Emissions :=
  (computeEmissions annual p).getD ⟨⟨0, UnitsC.one⟩, ⟨0, UnitsC.one⟩,
    ⟨0, UnitsC.one⟩⟩

/-- One successful iteration of the loop: store the plane's
emissions under its name. -/
def tableStep (annual : Quantity) (tbl : List (String × CO2Emissions))
    (p : PlaneCharacteristics) : List (String × CO2Emissions) :=
  dictInsert tbl p.name (computeD annual p)

/-- The last spec in the sequence bearing a given name, if any — the
one whose result survives the dict's silent overwrite. -/
def lastWithName (ps : List PlaneCharacteristics) (n : String) :
    Option PlaneCharacteristics :=
  ps.foldl (fun acc p => if p.name = n then some p else acc) none

/-! Dimension bookkeeping lemmas. -/

lemma dimOf_one : dimOf UnitsC.one = ⟨0, 0, 0⟩ := by
  simp [dimOf, UnitsC.one]

lemma dimOf_mul (a b : UnitsC) :
    dimOf (a.mul b) =
      ⟨(dimOf a).mass + (dimOf b).mass, (dimOf a).length + (dimOf b).length,
        (dimOf a).time + (dimOf b).time⟩ := by
  simp only [dimOf, UnitsC.mul, Dim.mk.injEq]
  omega

lemma dimOf_div (a b : UnitsC) :
    dimOf (a.div b) =
      ⟨(dimOf a).mass - (dimOf b).mass, (dimOf a).length - (dimOf b).length,
        (dimOf a).time - (dimOf b).time⟩ := by
  simp only [dimOf, UnitsC.div, Dim.mk.injEq]
  omega

/-- C1. For all positive quantities fuel_capacity (a volume),
combat_range (a length), and cruise_speed (a length/time),
`calculate_co2_per_hour` succeeds and equals
`(fuel_capacity / (2 * combat_range)) * cruise_speed *
KG_CO2_PER_GAL_JP8`, where `KG_CO2_PER_GAL_JP8` is 9.75 kg of CO2
per gallon, and the result has dimension mass/time, hence is
expressible in metric tons of CO2 per hour (`.to` succeeds). -/
theorem calculate_co2_per_hour_spec (f r s : Quantity)
    (hf : 0 < f.m) (hr : 0 < r.m) (hs : 0 < s.m)
    (df : dimOf f.u = ⟨0, 3, 0⟩) (dr : dimOf r.u = ⟨0, 1, 0⟩)
    (ds : dimOf s.u = ⟨0, 1, -1⟩) :
    ∃ q, calculate_co2_per_hour f r s = some q ∧
      q = ((f.div (Quantity.smul 2 r)).mul s).mul KG_CO2_PER_GAL_JP8 ∧
      q.m = f.m / (2 * r.m) * s.m * (39 / 4) ∧
      KG_CO2_PER_GAL_JP8.m = 39 / 4 ∧
      dimOf KG_CO2_PER_GAL_JP8.u = ⟨1, -3, 0⟩ ∧
      dimOf q.u = ⟨1, 0, -1⟩ ∧ (q.to tonPerHourU).isSome := by
  have h2r : (2 : ℚ) * r.m ≠ 0 := by positivity
  refine ⟨((f.div (Quantity.smul 2 r)).mul s).mul KG_CO2_PER_GAL_JP8, ?_, rfl,
    ?_, ?_, ?_, ?_, ?_⟩
  · simp [calculate_co2_per_hour, Quantity.div?, Quantity.smul, h2r]
  · simp [Quantity.mul, Quantity.div, Quantity.smul, KG_CO2_PER_GAL_JP8,
      qKg, qGal]
  · simp [KG_CO2_PER_GAL_JP8, Quantity.div, Quantity.smul, qKg, qGal]
  · simp [KG_CO2_PER_GAL_JP8, Quantity.div, Quantity.smul, qKg, qGal,
      UnitsC.div, UnitsC.one, dimOf]
  · simp only [Quantity.mul, Quantity.div, Quantity.smul, dimOf_mul, dimOf_div]
    simp only [df, dr, ds, KG_CO2_PER_GAL_JP8, Quantity.div, Quantity.smul,
      qKg, qGal]
    simp [dimOf, UnitsC.div, UnitsC.one, Dim.mk.injEq]
  · have hq : dimOf (((f.div (Quantity.smul 2 r)).mul s).mul
        KG_CO2_PER_GAL_JP8).u = ⟨1, 0, -1⟩ := by
      simp only [Quantity.mul, Quantity.div, Quantity.smul, dimOf_mul,
        dimOf_div]
      simp only [df, dr, ds, KG_CO2_PER_GAL_JP8, Quantity.div, Quantity.smul,
        qKg, qGal]
      simp [dimOf, UnitsC.div, UnitsC.one, Dim.mk.injEq]
    have ht : dimOf tonPerHourU = ⟨1, 0, -1⟩ := by
      simp [dimOf, tonPerHourU, UnitsC.one]
    simp [Quantity.to, hq, ht]

/-- Witness for C1 at fuel 1 gal, range 1 mi, speed 1 mi/h. -/
theorem calculate_co2_per_hour_spec_witness :
    ∃ q, calculate_co2_per_hour qGal qMi (qMi.div qHr) = some q ∧
      q = ((qGal.div (Quantity.smul 2 qMi)).mul (qMi.div qHr)).mul
        KG_CO2_PER_GAL_JP8 ∧
      q.m = qGal.m / (2 * qMi.m) * (qMi.div qHr).m * (39 / 4) ∧
      KG_CO2_PER_GAL_JP8.m = 39 / 4 ∧
      dimOf KG_CO2_PER_GAL_JP8.u = ⟨1, -3, 0⟩ ∧
      dimOf q.u = ⟨1, 0, -1⟩ ∧ (q.to tonPerHourU).isSome :=
  calculate_co2_per_hour_spec qGal qMi (qMi.div qHr)
    (by norm_num [qGal]) (by norm_num [qMi])
    (by norm_num [qMi, qHr, Quantity.div])
    (by simp [qGal, dimOf, UnitsC.one])
    (by simp [qMi, dimOf, UnitsC.one])
    (by simp [qMi, qHr, Quantity.div, dimOf, UnitsC.div, UnitsC.one])

/-- C3. The comparison-unit selection is total on positive ratios and
selects exactly one unit: years when r > 1, months when r ≤ 1 and
r > 1/12, weeks when r ≤ 1/12; in particular r = 1 selects months
and r = 1/12 selects weeks (strict `>` at both boundaries). -/
theorem selectUnit_total_policy (r : ℚ) (hr : 0 < r) :
    (1 < r → selectUnit r = ReportUnit.years) ∧
    (r ≤ 1 → 1 / 12 < r → selectUnit r = ReportUnit.months) ∧
    (r ≤ 1 / 12 → selectUnit r = ReportUnit.weeks) ∧
    selectUnit 1 = ReportUnit.months ∧
    selectUnit (1 / 12) = ReportUnit.weeks := by
  refine ⟨fun h => ?_, fun h h12 => ?_, fun h => ?_, ?_, ?_⟩
  · rw [selectUnit, if_pos h]
  · rw [selectUnit, if_neg (not_lt.mpr h), if_pos h12]
  · have h1 : ¬ (1 : ℚ) < r := by linarith
    rw [selectUnit, if_neg h1, if_neg (not_lt.mpr h)]
  · norm_num [selectUnit]
  · norm_num [selectUnit]

/-- Witness for C3 at r = 2. -/
theorem selectUnit_total_policy_witness :
    (1 < (2 : ℚ) → selectUnit 2 = ReportUnit.years) ∧
    ((2 : ℚ) ≤ 1 → 1 / 12 < (2 : ℚ) → selectUnit 2 = ReportUnit.months) ∧
    ((2 : ℚ) ≤ 1 / 12 → selectUnit 2 = ReportUnit.weeks) ∧
    selectUnit 1 = ReportUnit.months ∧
    selectUnit (1 / 12) = ReportUnit.weeks :=
  selectUnit_total_policy 2 (by norm_num)

/-- C6. `calculate_co2_per_hour` is linear in fuel capacity and in
cruise speed, and inversely proportional to combat range: scaling
fuel or speed by k > 0 scales the output by k, and scaling range by
k scales the output by 1/k. -/
theorem calculate_co2_per_hour_scaling (f r s : Quantity) (k : ℚ)
    (hf : 0 < f.m) (hr : 0 < r.m) (hs : 0 < s.m) (hk : 0 < k) :
    ∃ q, calculate_co2_per_hour f r s = some q ∧
      calculate_co2_per_hour (Quantity.smul k f) r s =
        some (Quantity.smul k q) ∧
      calculate_co2_per_hour f r (Quantity.smul k s) =
        some (Quantity.smul k q) ∧
      calculate_co2_per_hour f (Quantity.smul k r) s =
        some (Quantity.smul k⁻¹ q) := by
  have h2r : (2 : ℚ) * r.m ≠ 0 := by positivity
  have h2kr : (2 : ℚ) * (k * r.m) ≠ 0 := by positivity
  have hk0 : k ≠ 0 := ne_of_gt hk
  refine ⟨((f.div (Quantity.smul 2 r)).mul s).mul KG_CO2_PER_GAL_JP8, ?_, ?_,
    ?_, ?_⟩
  · simp [calculate_co2_per_hour, Quantity.div?, Quantity.smul, h2r]
  · simp only [calculate_co2_per_hour, Quantity.div?, Quantity.smul,
      Quantity.div, Quantity.mul]
    simp [h2r, Quantity.mk.injEq]
    field_simp
    ring
  · simp only [calculate_co2_per_hour, Quantity.div?, Quantity.smul,
      Quantity.div, Quantity.mul]
    simp [h2r, Quantity.mk.injEq]
    field_simp
    ring
  · simp only [calculate_co2_per_hour, Quantity.div?, Quantity.smul,
      Quantity.div, Quantity.mul]
    simp [h2r, h2kr, Quantity.mk.injEq]
    field_simp
    ring_nf
    simp

/-- Witness for C6 at fuel 3 gal, range 5 mi, speed 7 mi/h, k = 2. -/
theorem calculate_co2_per_hour_scaling_witness :
    ∃ q, calculate_co2_per_hour (Quantity.smul 3 qGal) (Quantity.smul 5 qMi)
        (Quantity.smul 7 (qMi.div qHr)) = some q ∧
      calculate_co2_per_hour (Quantity.smul 2 (Quantity.smul 3 qGal))
        (Quantity.smul 5 qMi) (Quantity.smul 7 (qMi.div qHr)) =
        some (Quantity.smul 2 q) ∧
      calculate_co2_per_hour (Quantity.smul 3 qGal) (Quantity.smul 5 qMi)
        (Quantity.smul 2 (Quantity.smul 7 (qMi.div qHr))) =
        some (Quantity.smul 2 q) ∧
      calculate_co2_per_hour (Quantity.smul 3 qGal)
        (Quantity.smul 2 (Quantity.smul 5 qMi))
        (Quantity.smul 7 (qMi.div qHr)) =
        some (Quantity.smul (2 : ℚ)⁻¹ q) :=
  calculate_co2_per_hour_scaling (Quantity.smul 3 qGal) (Quantity.smul 5 qMi)
    (Quantity.smul 7 (qMi.div qHr)) 2
    (by norm_num [qGal, Quantity.smul]) (by norm_num [qMi, Quantity.smul])
    (by norm_num [qMi, qHr, Quantity.div, Quantity.smul]) (by norm_num)

/-- C4 counterexample: a plane whose cruise speed evaluates to zero
does NOT fail with DivisionByZero — the pipeline returns a result
(with zero emissions), because cruise speed is only ever multiplied,
never used as a divisor. -/
theorem zero_cruise_speed_no_error :
    ((Quantity.smul 0 (qMi.div qHr)).m = 0) ∧
      computeEmissions CO2_TONS_YEAR_DRIVING
        ⟨"Z", Quantity.smul 47975 qGal, Quantity.smul 8800 qMi,
          Quantity.smul 0 (qMi.div qHr), Quantity.smul 34 qHr⟩ =
        some ⟨⟨0, tonPerHourU⟩, ⟨0, { UnitsC.one with metricTon := 1 }⟩,
          ⟨0, { UnitsC.one with yr := 1 }⟩⟩ := by
  constructor
  · norm_num [Quantity.smul, Quantity.div, qMi, qHr]
  · norm_num [computeEmissions, calculate_co2_per_hour,
      CO2_TONS_YEAR_DRIVING, KG_CO2_GAL, GALLONS_PER_YEAR_DRIVING,
      KG_CO2_PER_GAL_JP8, Quantity.mul, Quantity.div, Quantity.div?,
      Quantity.to, Quantity.smul, qKg, qGal, qYr, qMi, qHr, dimOf, scaleOf,
      UnitsC.mul, UnitsC.div, UnitsC.one, tonPerYrU, tonPerHourU]

/-- C4 amended: the computation fails with DivisionByZero when
combat_range evaluates to zero or when the annual-driving reference
evaluates to zero; a zero cruise_speed raises no error and instead
yields zero co2_per_hour, co2_per_mission and comparison. -/
theorem computeEmissions_division_errors (annual : Quantity)
    (p : PlaneCharacteristics) :
    (p.combat_range.m = 0 → computeEmissions annual p = none) ∧
    (annual.m = 0 → computeEmissions annual p = none) ∧
    (p.cruise_speed.m = 0 → ∀ e, computeEmissions annual p = some e →
      e.co2_per_hour.m = 0 ∧ e.co2_per_mission.m = 0 ∧
        e.co2_comparison.m = 0) := by
  refine ⟨fun hr => ?_, fun ha => ?_, fun hs e he => ?_⟩
  · simp [computeEmissions, calculate_co2_per_hour, Quantity.div?,
      Quantity.smul, hr]
  · rw [computeEmissions]
    rcases calculate_co2_per_hour p.fuel_cap p.combat_range
        p.cruise_speed with _ | raw
    · rfl
    · simp only [Option.some_bind]
      rcases raw.to tonPerHourU with _ | ch
      · rfl
      · simp [Quantity.div?, ha]
  · rw [computeEmissions] at he
    simp only [Option.bind_eq_some, Option.map_eq_some'] at he
    obtain ⟨raw, h1, ch, h2, cmp, h3, rfl⟩ := he
    have hraw : raw.m = 0 := by
      rw [calculate_co2_per_hour] at h1
      simp only [Option.map_eq_some'] at h1
      obtain ⟨q, h4, h5⟩ := h1
      rw [← h5]
      simp [Quantity.mul, hs]
    have hch : ch.m = 0 := by
      rw [Quantity.to] at h2
      by_cases hd : dimOf raw.u = dimOf tonPerHourU
      · rw [if_pos hd] at h2
        simp only [Option.some.injEq] at h2
        rw [← h2]
        simp [hraw]
      · rw [if_neg hd] at h2
        exact absurd h2 (by simp)
    have hcm : (ch.mul p.mission_length).m = 0 := by
      simp [Quantity.mul, hch]
    have hcmp : cmp.m = 0 := by
      rw [Quantity.div?] at h3
      by_cases hz : annual.m = 0
      · rw [if_pos hz] at h3
        exact absurd h3 (by simp)
      · rw [if_neg hz] at h3
        simp only [Option.some.injEq] at h3
        rw [← h3]
        simp [Quantity.div, Quantity.mul, hch]
    exact ⟨hch, hcm, hcmp⟩

/-- Witness for C4 amended: zero combat range and a zero annual
reference each abort the B-52 computation. -/
theorem computeEmissions_division_errors_witness :
    computeEmissions CO2_TONS_YEAR_DRIVING
        ⟨"Z0", Quantity.smul 47975 qGal, Quantity.smul 0 qMi,
          (Quantity.smul 509 qMi).div qHr, Quantity.smul 34 qHr⟩ = none ∧
      computeEmissions ⟨0, tonPerYrU⟩
        ⟨"B-52", Quantity.smul 47975 qGal, Quantity.smul 8800 qMi,
          (Quantity.smul 509 qMi).div qHr, Quantity.smul 34 qHr⟩ = none :=
  ⟨(computeEmissions_division_errors CO2_TONS_YEAR_DRIVING _).1
      (by norm_num [Quantity.smul, qMi]),
   (computeEmissions_division_errors ⟨0, tonPerYrU⟩ _).2.1 rfl⟩

/-- C2 counterexample: for the B-52 spec the computed co2_comparison
is NOT dimensionless — the mass units cancel but the per-year
denominator survives, leaving a quantity whose units container is
`year` and whose dimension is time, not the empty dimension. -/
theorem co2_comparison_not_dimensionless :
    computeEmissions CO2_TONS_YEAR_DRIVING
        ⟨"B-52", Quantity.smul 47975 qGal, Quantity.smul 8800 qMi,
          (Quantity.smul 509 qMi).div qHr, Quantity.smul 34 qHr⟩ =
      some ⟨⟨38094069 / 2816000, tonPerHourU⟩,
        ⟨647599173 / 1408000, { UnitsC.one with metricTon := 1 }⟩,
        ⟨1079331955 / 10212928, { UnitsC.one with yr := 1 }⟩⟩ ∧
    dimOf { UnitsC.one with yr := 1 } ≠ (⟨0, 0, 0⟩ : Dim) := by
  constructor
  · norm_num [computeEmissions, calculate_co2_per_hour,
      CO2_TONS_YEAR_DRIVING, KG_CO2_GAL, GALLONS_PER_YEAR_DRIVING,
      KG_CO2_PER_GAL_JP8, Quantity.mul, Quantity.div, Quantity.div?,
      Quantity.to, Quantity.smul, qKg, qGal, qYr, qMi, qHr, dimOf, scaleOf,
      UnitsC.mul, UnitsC.div, UnitsC.one, tonPerYrU, tonPerHourU]
  · decide

/-- C2 amended: whenever `computeEmissions` succeeds on a spec with a
time-dimensioned mission length and a mass-per-time annual reference,
the resulting co2_comparison carries dimension time (its units reduce
to years), not the empty dimension. -/
theorem co2_comparison_time_dim (annual : Quantity)
    (p : PlaneCharacteristics) (e : CO2Emissions)
    (h : computeEmissions annual p = some e)
    (hm : dimOf p.mission_length.u = ⟨0, 0, 1⟩)
    (ha : dimOf annual.u = ⟨1, 0, -1⟩) :
    dimOf e.co2_comparison.u = ⟨0, 0, 1⟩ := by
  rw [computeEmissions] at h
  simp only [Option.bind_eq_some, Option.map_eq_some'] at h
  obtain ⟨raw, h1, ch, h2, cmp, h3, rfl⟩ := h
  have hchu : ch.u = tonPerHourU := by
    rw [Quantity.to] at h2
    by_cases hd : dimOf raw.u = dimOf tonPerHourU
    · rw [if_pos hd] at h2
      simp only [Option.some.injEq] at h2
      rw [← h2]
    · rw [if_neg hd] at h2
      exact absurd h2 (by simp)
  have hcmp : cmp = (ch.mul p.mission_length).div annual := by
    rw [Quantity.div?] at h3
    by_cases hz : annual.m = 0
    · rw [if_pos hz] at h3
      exact absurd h3 (by simp)
    · rw [if_neg hz] at h3
      simp only [Option.some.injEq] at h3
      rw [h3]
  subst hcmp
  have hton : dimOf tonPerHourU = ⟨1, 0, -1⟩ := by
    simp [dimOf, tonPerHourU, UnitsC.one]
  simp only [Quantity.div, Quantity.mul, dimOf_div, dimOf_mul, hchu, hton,
    hm, ha]
  norm_num

/-- Witness for C2 amended at the B-52 spec. -/
theorem co2_comparison_time_dim_witness :
    dimOf (CO2Emissions.mk ⟨38094069 / 2816000, tonPerHourU⟩
      ⟨647599173 / 1408000, { UnitsC.one with metricTon := 1 }⟩
      ⟨1079331955 / 10212928,
        { UnitsC.one with yr := 1 }⟩).co2_comparison.u = ⟨0, 0, 1⟩ :=
  co2_comparison_time_dim CO2_TONS_YEAR_DRIVING
    ⟨"B-52", Quantity.smul 47975 qGal, Quantity.smul 8800 qMi,
      (Quantity.smul 509 qMi).div qHr, Quantity.smul 34 qHr⟩ _
    (by norm_num [computeEmissions, calculate_co2_per_hour,
      CO2_TONS_YEAR_DRIVING, KG_CO2_GAL, GALLONS_PER_YEAR_DRIVING,
      KG_CO2_PER_GAL_JP8, Quantity.mul, Quantity.div, Quantity.div?,
      Quantity.to, Quantity.smul, qKg, qGal, qYr, qMi, qHr, dimOf, scaleOf,
      UnitsC.mul, UnitsC.div, UnitsC.one, tonPerYrU, tonPerHourU])
    (by simp [Quantity.smul, qHr, dimOf, UnitsC.one])
    (by simp [CO2_TONS_YEAR_DRIVING, KG_CO2_GAL, GALLONS_PER_YEAR_DRIVING,
      Quantity.mul, Quantity.div, Quantity.to, Quantity.smul, qKg, qGal, qYr,
      dimOf, scaleOf, UnitsC.mul, UnitsC.div, UnitsC.one, tonPerYrU])

/-- C5 counterexample: for the F-35 spec the computed values are
co2_per_hour = 614003/55440 ≈ 11.075 t/h and co2_per_mission =
614003/27720 ≈ 22.150 t, which differ from the claimed 11.09 and
22.18 by more than one unit in the last printed digit (0.01 resp.
0.02): the spec's own arithmetic slip (2703.7/1540 × 647 × 9.75 is
about 11075 kg/h, not 11089). -/
theorem f35_figures_off :
    computeEmissions CO2_TONS_YEAR_DRIVING
        ⟨"F-35", (Quantity.smul 18250 qLb).div JP8_DENSITY,
          Quantity.smul 770 qMi, (Quantity.smul 647 qMi).div qHr,
          Quantity.smul 2 qHr⟩ =
      some ⟨⟨614003 / 55440, tonPerHourU⟩,
        ⟨614003 / 27720, { UnitsC.one with metricTon := 1 }⟩,
        ⟨153500750 / 30160053, { UnitsC.one with yr := 1 }⟩⟩ ∧
    (1 / 100 : ℚ) < |614003 / 55440 - 1109 / 100| ∧
    (1 / 50 : ℚ) < |614003 / 27720 - 2218 / 100| := by
  refine ⟨?_, by rw [abs_sub_comm]; rw [abs_of_pos (by norm_num)]; norm_num,
    by rw [abs_sub_comm]; rw [abs_of_pos (by norm_num)]; norm_num⟩
  norm_num [computeEmissions, calculate_co2_per_hour,
    CO2_TONS_YEAR_DRIVING, KG_CO2_GAL, GALLONS_PER_YEAR_DRIVING,
    KG_CO2_PER_GAL_JP8, JP8_DENSITY, Quantity.mul, Quantity.div,
    Quantity.div?, Quantity.to, Quantity.smul, qKg, qGal, qYr, qMi, qHr,
    qLb, dimOf, scaleOf, UnitsC.mul, UnitsC.div, UnitsC.one, tonPerYrU,
    tonPerHourU]

/-- C5 amended: for the F-35 spec (fuel 18,250 lb ÷ 6.75 lb/gal =
73000/27 ≈ 2703.7 gal, converted before use; range 770 mi; speed 647
mi/h; mission 2 h) the computed co2_per_hour is ≈ 11.08 t/h (exactly
614003/55440), co2_per_mission ≈ 22.15 t, and the comparison is ≈
5.09 ≈ 5.1, which exceeds 1 and falls in the years branch. -/
theorem f35_scenario :
    computeEmissions CO2_TONS_YEAR_DRIVING
        ⟨"F-35", (Quantity.smul 18250 qLb).div JP8_DENSITY,
          Quantity.smul 770 qMi, (Quantity.smul 647 qMi).div qHr,
          Quantity.smul 2 qHr⟩ =
      some ⟨⟨614003 / 55440, tonPerHourU⟩,
        ⟨614003 / 27720, { UnitsC.one with metricTon := 1 }⟩,
        ⟨153500750 / 30160053, { UnitsC.one with yr := 1 }⟩⟩ ∧
    ((Quantity.smul 18250 qLb).div JP8_DENSITY).m = 73000 / 27 ∧
    |73000 / 27 - (27037 / 10 : ℚ)| < 1 / 10 ∧
    |614003 / 55440 - (1108 / 100 : ℚ)| < 1 / 100 ∧
    |614003 / 27720 - (2215 / 100 : ℚ)| < 1 / 100 ∧
    |153500750 / 30160053 - (51 / 10 : ℚ)| < 5 / 100 ∧
    (1 : ℚ) < 153500750 / 30160053 ∧
    selectUnit (153500750 / 30160053) = ReportUnit.years := by
  refine ⟨?_, ?_, ?_, ?_, ?_, ?_, by norm_num, ?_⟩
  · norm_num [computeEmissions, calculate_co2_per_hour,
      CO2_TONS_YEAR_DRIVING, KG_CO2_GAL, GALLONS_PER_YEAR_DRIVING,
      KG_CO2_PER_GAL_JP8, JP8_DENSITY, Quantity.mul, Quantity.div,
      Quantity.div?, Quantity.to, Quantity.smul, qKg, qGal, qYr, qMi, qHr,
      qLb, dimOf, scaleOf, UnitsC.mul, UnitsC.div, UnitsC.one, tonPerYrU,
      tonPerHourU]
  · norm_num [Quantity.smul, Quantity.div, qLb, qGal, JP8_DENSITY, qKg]
  · rw [abs_of_pos (by norm_num)]
    norm_num
  · rw [abs_sub_comm, abs_of_pos (by norm_num)]
    norm_num
  · rw [abs_of_pos (by norm_num)]
    norm_num
  · rw [abs_sub_comm, abs_of_pos (by norm_num)]
    norm_num
  · rw [selectUnit, if_pos (by norm_num)]

/-- C10. Every plane in the hardcoded five-aircraft list produces a
successful result whose co2_per_hour, co2_per_mission and comparison
magnitudes are strictly positive. -/
theorem planes_emissions_positive :
    ∀ p ∈ planes, ∃ e, computeEmissions CO2_TONS_YEAR_DRIVING p = some e ∧
      0 < e.co2_per_hour.m ∧ 0 < e.co2_per_mission.m ∧
        0 < e.co2_comparison.m := by
  intro p hp
  fin_cases hp
  · exact ⟨⟨⟨38094069 / 2816000, tonPerHourU⟩,
      ⟨647599173 / 1408000, { UnitsC.one with metricTon := 1 }⟩,
      ⟨1079331955 / 10212928, { UnitsC.one with yr := 1 }⟩⟩,
      by norm_num [computeEmissions, calculate_co2_per_hour,
        CO2_TONS_YEAR_DRIVING, KG_CO2_GAL, GALLONS_PER_YEAR_DRIVING,
        KG_CO2_PER_GAL_JP8, JP8_DENSITY, Quantity.mul, Quantity.div,
        Quantity.div?, Quantity.to, Quantity.smul, qKg, qGal, qYr, qMi,
        qHr, qLb, dimOf, scaleOf, UnitsC.mul, UnitsC.div, UnitsC.one,
        tonPerYrU, tonPerHourU]⟩
  · exact ⟨⟨⟨1115609807 / 30996000, tonPerHourU⟩,
      ⟨1115609807 / 2583000, { UnitsC.one with metricTon := 1 }⟩,
      ⟨11156098070 / 112414743, { UnitsC.one with yr := 1 }⟩⟩,
      by norm_num [computeEmissions, calculate_co2_per_hour,
        CO2_TONS_YEAR_DRIVING, KG_CO2_GAL, GALLONS_PER_YEAR_DRIVING,
        KG_CO2_PER_GAL_JP8, JP8_DENSITY, Quantity.mul, Quantity.div,
        Quantity.div?, Quantity.to, Quantity.smul, qKg, qGal, qYr, qMi,
        qHr, qLb, dimOf, scaleOf, UnitsC.mul, UnitsC.div, UnitsC.one,
        tonPerYrU, tonPerHourU]⟩
  · exact ⟨⟨⟨30394 / 3105, tonPerHourU⟩,
      ⟨942214 / 3105, { UnitsC.one with metricTon := 1 }⟩,
      ⟨1884428000 / 27026541, { UnitsC.one with yr := 1 }⟩⟩,
      by norm_num [computeEmissions, calculate_co2_per_hour,
        CO2_TONS_YEAR_DRIVING, KG_CO2_GAL, GALLONS_PER_YEAR_DRIVING,
        KG_CO2_PER_GAL_JP8, JP8_DENSITY, Quantity.mul, Quantity.div,
        Quantity.div?, Quantity.to, Quantity.smul, qKg, qGal, qYr, qMi,
        qHr, qLb, dimOf, scaleOf, UnitsC.mul, UnitsC.div, UnitsC.one,
        tonPerYrU, tonPerHourU]⟩
  · exact ⟨⟨⟨73853 / 16280, tonPerHourU⟩,
      ⟨73853 / 8140, { UnitsC.one with metricTon := 1 }⟩,
      ⟨36926500 / 17713047, { UnitsC.one with yr := 1 }⟩⟩,
      by norm_num [computeEmissions, calculate_co2_per_hour,
        CO2_TONS_YEAR_DRIVING, KG_CO2_GAL, GALLONS_PER_YEAR_DRIVING,
        KG_CO2_PER_GAL_JP8, JP8_DENSITY, Quantity.mul, Quantity.div,
        Quantity.div?, Quantity.to, Quantity.smul, qKg, qGal, qYr, qMi,
        qHr, qLb, dimOf, scaleOf, UnitsC.mul, UnitsC.div, UnitsC.one,
        tonPerYrU, tonPerHourU]⟩
  · exact ⟨⟨⟨614003 / 55440, tonPerHourU⟩,
      ⟨614003 / 27720, { UnitsC.one with metricTon := 1 }⟩,
      ⟨153500750 / 30160053, { UnitsC.one with yr := 1 }⟩⟩,
      by norm_num [computeEmissions, calculate_co2_per_hour,
        CO2_TONS_YEAR_DRIVING, KG_CO2_GAL, GALLONS_PER_YEAR_DRIVING,
        KG_CO2_PER_GAL_JP8, JP8_DENSITY, Quantity.mul, Quantity.div,
        Quantity.div?, Quantity.to, Quantity.smul, qKg, qGal, qYr, qMi,
        qHr, qLb, dimOf, scaleOf, UnitsC.mul, UnitsC.div, UnitsC.one,
        tonPerYrU, tonPerHourU]⟩

/-- Witness for C10 at the B-52, the first plane of the list. -/
theorem planes_emissions_positive_witness :
    ∃ e, computeEmissions CO2_TONS_YEAR_DRIVING
        ⟨"B-52", Quantity.smul 47975 qGal, Quantity.smul 8800 qMi,
          (Quantity.smul 509 qMi).div qHr, Quantity.smul 34 qHr⟩ =
      some e ∧ 0 < e.co2_per_hour.m ∧ 0 < e.co2_per_mission.m ∧
        0 < e.co2_comparison.m :=
  planes_emissions_positive _ (by unfold planes; exact List.mem_cons_self _ _)

/-! Dictionary lemmas. -/

lemma lookupTbl_dictInsert {β : Type} (tbl : List (String × β)) (k n : String)
    (v : β) :
    lookupTbl (dictInsert tbl k v) n =
      if k = n then some v else lookupTbl tbl n := by
  induction tbl with
  | nil => rfl
  | cons kv t ih =>
    obtain ⟨k0, v0⟩ := kv
    by_cases h0 : k0 = k
    · subst h0
      simp only [dictInsert, if_pos rfl]
      by_cases hn : k0 = n
      · simp [lookupTbl, hn]
      · simp [lookupTbl, hn]
    · simp only [dictInsert, if_neg h0]
      by_cases hn : k0 = n
      · have hkn : ¬ k = n := fun h => h0 (hn ▸ h.symm ▸ rfl)
        simp [lookupTbl, hn, hkn]
      · simp [lookupTbl, hn, ih]

lemma mem_keys_dictInsert {β : Type} (tbl : List (String × β)) (k n : String)
    (v : β) :
    n ∈ (dictInsert tbl k v).map Prod.fst ↔
      n ∈ tbl.map Prod.fst ∨ n = k := by
  induction tbl with
  | nil => simp [dictInsert]
  | cons kv t ih =>
    obtain ⟨k0, v0⟩ := kv
    simp only [dictInsert]
    by_cases h0 : k0 = k
    · rw [if_pos h0]
      subst h0
      simp only [List.map_cons, List.mem_cons]
      tauto
    · rw [if_neg h0]
      simp only [List.map_cons, List.mem_cons, ih]
      tauto

lemma keys_dictInsert_of_not_mem {β : Type} (tbl : List (String × β))
    (k : String) (v : β) (h : k ∉ tbl.map Prod.fst) :
    (dictInsert tbl k v).map Prod.fst = tbl.map Prod.fst ++ [k] := by
  induction tbl with
  | nil => rfl
  | cons kv t ih =>
    obtain ⟨k0, v0⟩ := kv
    simp only [List.map_cons, List.mem_cons] at h
    push_neg at h
    have hne : ¬ k0 = k := fun h0 => h.1 h0.symm
    simp only [dictInsert, if_neg hne, List.map_cons, ih h.2,
      List.cons_append]

lemma nodup_keys_dictInsert {β : Type} (tbl : List (String × β))
    (k : String) (v : β) (h : (tbl.map Prod.fst).Nodup) :
    ((dictInsert tbl k v).map Prod.fst).Nodup := by
  induction tbl with
  | nil => simp [dictInsert]
  | cons kv t ih =>
    obtain ⟨k0, v0⟩ := kv
    simp only [List.map_cons, List.nodup_cons] at h
    simp only [dictInsert]
    by_cases h0 : k0 = k
    · rw [if_pos h0]
      subst h0
      simp only [List.map_cons, List.nodup_cons]
      exact h
    · rw [if_neg h0]
      simp only [List.map_cons, List.nodup_cons]
      refine ⟨fun hmem => ?_, ih h.2⟩
      rcases (mem_keys_dictInsert t k k0 v).mp hmem with hm | he
      · exact h.1 hm
      · exact h0 he

/-! Fold lemmas about the emissions loop. -/

lemma emissionsLoop_eq_foldl (annual : Quantity) :
    ∀ (ps : List PlaneCharacteristics) (tbl : List (String × CO2Emissions)),
      (∀ p ∈ ps, (computeEmissions annual p).isSome) →
      emissionsLoop annual ps tbl = some (ps.foldl (tableStep annual) tbl)
  | [], tbl, _ => rfl
  | p :: ps, tbl, h => by
    have hp : (computeEmissions annual p).isSome := h p (by simp)
    rcases he : computeEmissions annual p with _ | e
    · rw [he] at hp
      exact absurd hp (by simp)
    · have hD : computeD annual p = e := by
        rw [computeD, he]
        rfl
      rw [emissionsLoop, he, List.foldl_cons]
      have : tableStep annual tbl p = dictInsert tbl p.name e := by
        rw [tableStep, hD]
      rw [this]
      exact emissionsLoop_eq_foldl annual ps _
        (fun q hq => h q (List.mem_cons_of_mem _ hq))

lemma emissionsLoop_eq_none (annual : Quantity) :
    ∀ (ps : List PlaneCharacteristics) (tbl : List (String × CO2Emissions))
      (p : PlaneCharacteristics), p ∈ ps →
      computeEmissions annual p = none → emissionsLoop annual ps tbl = none
  | [], _, p, hp, _ => absurd hp (by simp)
  | q :: ps, tbl, p, hp, hnone => by
    rcases List.mem_cons.mp hp with rfl | hmem
    · rw [emissionsLoop, hnone]
    · rcases he : computeEmissions annual q with _ | e
      · rw [emissionsLoop, he]
      · rw [emissionsLoop, he]
        exact emissionsLoop_eq_none annual ps _ p hmem hnone

lemma buildTable_some_all_isSome (annual : Quantity)
    (ps : List PlaneCharacteristics) (t : List (String × CO2Emissions))
    (h : buildTable annual ps = some t) :
    ∀ p ∈ ps, (computeEmissions annual p).isSome := by
  intro p hp
  rcases he : computeEmissions annual p with _ | e
  · rw [buildTable, emissionsLoop_eq_none annual ps [] p hp he] at h
    exact absurd h (by simp)
  · simp

lemma lastWithName_foldl_acc (n : String) (ps : List PlaneCharacteristics) :
    ∀ (a : Option PlaneCharacteristics),
      ps.foldl (fun acc p => if p.name = n then some p else acc) a =
        (lastWithName ps n).elim a some := by
  induction ps with
  | nil => intro a; rfl
  | cons p ps ih =>
    intro a
    by_cases hp : p.name = n
    · rw [List.foldl_cons]
      simp only [if_pos hp]
      rw [ih (some p)]
      have hcons : lastWithName (p :: ps) n = (lastWithName ps n).elim
          (some p) some := by
        rw [lastWithName, List.foldl_cons]
        simp only [if_pos hp]
        exact ih (some p)
      rw [hcons]
      cases lastWithName ps n <;> rfl
    · rw [List.foldl_cons]
      simp only [if_neg hp]
      rw [ih a]
      have hcons : lastWithName (p :: ps) n = lastWithName ps n := by
        rw [lastWithName, List.foldl_cons]
        simp only [if_neg hp]
        rfl
      rw [hcons]

lemma lastWithName_cons (n : String) (q : PlaneCharacteristics)
    (ps : List PlaneCharacteristics) :
    lastWithName (q :: ps) n =
      (lastWithName ps n).elim (if q.name = n then some q else none) some :=
  lastWithName_foldl_acc n ps (if q.name = n then some q else none)

lemma lookupTbl_foldl (annual : Quantity) (n : String) :
    ∀ (ps : List PlaneCharacteristics) (tbl : List (String × CO2Emissions)),
      lookupTbl (ps.foldl (tableStep annual) tbl) n =
        (lastWithName ps n).elim (lookupTbl tbl n)
          (fun p => some (computeD annual p))
  | [], tbl => rfl
  | p :: ps, tbl => by
    rw [List.foldl_cons, lookupTbl_foldl annual n ps (tableStep annual tbl p)]
    by_cases hp : p.name = n
    · have hcons : lastWithName (p :: ps) n = (lastWithName ps n).elim
          (some p) some := by
        rw [lastWithName, List.foldl_cons]
        simp only [if_pos hp]
        exact lastWithName_foldl_acc n ps (some p)
      rw [hcons]
      cases lastWithName ps n with
      | none =>
        simp only [Option.elim]
        rw [tableStep, lookupTbl_dictInsert, if_pos hp]
      | some q => rfl
    · have hcons : lastWithName (p :: ps) n = lastWithName ps n := by
        rw [lastWithName, List.foldl_cons]
        simp only [if_neg hp]
        rfl
      rw [hcons]
      cases lastWithName ps n with
      | none =>
        simp only [Option.elim]
        rw [tableStep, lookupTbl_dictInsert, if_neg hp]
      | some q => rfl

lemma lastWithName_mem (n : String) :
    ∀ (ps : List PlaneCharacteristics) (p : PlaneCharacteristics),
      lastWithName ps n = some p → p ∈ ps ∧ p.name = n
  | [], p, h => absurd h (by simp [lastWithName])
  | q :: ps, p, h => by
    rw [lastWithName_cons] at h
    rcases hl : lastWithName ps n with _ | r
    · rw [hl] at h
      simp only [Option.elim] at h
      by_cases hq : q.name = n
      · rw [if_pos hq] at h
        simp only [Option.some.injEq] at h
        subst h
        exact ⟨List.mem_cons_self _ _, hq⟩
      · rw [if_neg hq] at h
        exact absurd h (by simp)
    · rw [hl] at h
      simp only [Option.elim, Option.some.injEq] at h
      subst h
      have hmem := lastWithName_mem n ps r hl
      exact ⟨List.mem_cons_of_mem _ hmem.1, hmem.2⟩

lemma lastWithName_isSome_of_mem (n : String) :
    ∀ (ps : List PlaneCharacteristics) (p : PlaneCharacteristics),
      p ∈ ps → p.name = n → (lastWithName ps n).isSome
  | [], p, hp, _ => absurd hp (by simp)
  | q :: ps, p, hp, hn => by
    rw [lastWithName_cons]
    rcases hl : lastWithName ps n with _ | r
    · simp only [Option.elim]
      rcases List.mem_cons.mp hp with rfl | hmem
      · rw [if_pos hn]
        simp
      · have hs := lastWithName_isSome_of_mem n ps p hmem hn
        rw [hl] at hs
        exact absurd hs (by simp)
    · simp

lemma name_unique_of_nodup (ps : List PlaneCharacteristics)
    (hnodup : (ps.map PlaneCharacteristics.name).Nodup)
    (p q : PlaneCharacteristics) (hp : p ∈ ps) (hq : q ∈ ps)
    (h : p.name = q.name) : p = q := by
  induction ps with
  | nil => exact absurd hp (by simp)
  | cons a t ih =>
    simp only [List.map_cons, List.nodup_cons] at hnodup
    rcases List.mem_cons.mp hp with rfl | hpt
    · rcases List.mem_cons.mp hq with rfl | hqt
      · rfl
      · exact absurd (h ▸ List.mem_map_of_mem
          PlaneCharacteristics.name hqt) hnodup.1
    · rcases List.mem_cons.mp hq with rfl | hqt
      · exact absurd (h ▸ List.mem_map_of_mem
          PlaneCharacteristics.name hpt) hnodup.1
      · exact ih hnodup.2 hpt hqt

lemma lastWithName_perm (n : String) (ps ps' : List PlaneCharacteristics)
    (hperm : ps.Perm ps')
    (hnodup : (ps.map PlaneCharacteristics.name).Nodup) :
    lastWithName ps n = lastWithName ps' n := by
  have hnodup' : (ps'.map PlaneCharacteristics.name).Nodup :=
    (hperm.map PlaneCharacteristics.name).nodup_iff.mp hnodup
  rcases h : lastWithName ps n with _ | p
  · rcases h' : lastWithName ps' n with _ | q
    · rfl
    · have hq := lastWithName_mem n ps' q h'
      have : (lastWithName ps n).isSome :=
        lastWithName_isSome_of_mem n ps q (hperm.mem_iff.mpr hq.1) hq.2
      rw [h] at this
      exact absurd this (by simp)
  · have hp := lastWithName_mem n ps p h
    have hsome : (lastWithName ps' n).isSome :=
      lastWithName_isSome_of_mem n ps' p (hperm.mem_iff.mp hp.1) hp.2
    rcases h' : lastWithName ps' n with _ | q
    · rw [h'] at hsome
      exact absurd hsome (by simp)
    · have hq := lastWithName_mem n ps' q h'
      have : q = p := name_unique_of_nodup ps' hnodup' q p hq.1
        (hperm.mem_iff.mp hp.1) (hq.2.trans hp.2.symm)
      rw [this]

lemma keys_foldl (annual : Quantity) :
    ∀ (ps : List PlaneCharacteristics) (tbl : List (String × CO2Emissions)),
      (∀ p ∈ ps, p.name ∉ tbl.map Prod.fst) →
      (ps.map PlaneCharacteristics.name).Nodup →
      (ps.foldl (tableStep annual) tbl).map Prod.fst =
        tbl.map Prod.fst ++ ps.map PlaneCharacteristics.name
  | [], tbl, _, _ => by simp
  | p :: ps, tbl, hdisj, hnodup => by
    rw [List.foldl_cons]
    simp only [List.map_cons, List.nodup_cons] at hnodup
    have hstep : (tableStep annual tbl p).map Prod.fst =
        tbl.map Prod.fst ++ [p.name] :=
      keys_dictInsert_of_not_mem tbl p.name _
        (hdisj p (List.mem_cons_self _ _))
    have hdisj' : ∀ q ∈ ps, q.name ∉ (tableStep annual tbl p).map Prod.fst := by
      intro q hq
      rw [hstep]
      simp only [List.mem_append, List.mem_singleton]
      rintro (hmem | heq)
      · exact hdisj q (List.mem_cons_of_mem _ hq) hmem
      · exact hnodup.1
          (heq ▸ List.mem_map_of_mem PlaneCharacteristics.name hq)
    rw [keys_foldl annual ps (tableStep annual tbl p) hdisj' hnodup.2, hstep,
      List.append_assoc]
    simp

lemma nodup_keys_foldl (annual : Quantity) :
    ∀ (ps : List PlaneCharacteristics) (tbl : List (String × CO2Emissions)),
      (tbl.map Prod.fst).Nodup →
      ((ps.foldl (tableStep annual) tbl).map Prod.fst).Nodup
  | [], _, h => h
  | p :: ps, tbl, h => by
    rw [List.foldl_cons]
    exact nodup_keys_foldl annual ps _ (nodup_keys_dictInsert tbl p.name _ h)

lemma mem_keys_of_lookupTbl {β : Type} :
    ∀ (tbl : List (String × β)) (n : String) (v : β),
      lookupTbl tbl n = some v → n ∈ tbl.map Prod.fst
  | [], n, v, h => absurd h (by simp [lookupTbl])
  | (k0, v0) :: t, n, v, h => by
    rw [lookupTbl] at h
    by_cases h0 : k0 = n
    · simp [h0]
    · rw [if_neg h0] at h
      simp only [List.map_cons, List.mem_cons]
      exact Or.inr (mem_keys_of_lookupTbl t n v h)

/-- C7 counterexample: with two specs sharing the name "A" but
different fuel loads, swapping them changes the table's entry for
"A" — the permuted sequence does not yield the same per-name result. -/
theorem buildTable_perm_duplicate_counterexample :
    ([⟨"A", Quantity.smul 1 qGal, Quantity.smul 1 qMi,
        (Quantity.smul 1 qMi).div qHr, Quantity.smul 1 qHr⟩,
      ⟨"A", Quantity.smul 2 qGal, Quantity.smul 1 qMi,
        (Quantity.smul 1 qMi).div qHr, Quantity.smul 1 qHr⟩] :
      List PlaneCharacteristics).Perm
      [⟨"A", Quantity.smul 2 qGal, Quantity.smul 1 qMi,
        (Quantity.smul 1 qMi).div qHr, Quantity.smul 1 qHr⟩,
       ⟨"A", Quantity.smul 1 qGal, Quantity.smul 1 qMi,
        (Quantity.smul 1 qMi).div qHr, Quantity.smul 1 qHr⟩] ∧
    (buildTable CO2_TONS_YEAR_DRIVING
        [⟨"A", Quantity.smul 1 qGal, Quantity.smul 1 qMi,
          (Quantity.smul 1 qMi).div qHr, Quantity.smul 1 qHr⟩,
         ⟨"A", Quantity.smul 2 qGal, Quantity.smul 1 qMi,
          (Quantity.smul 1 qMi).div qHr, Quantity.smul 1 qHr⟩]).bind
      (fun t => lookupTbl t "A") ≠
    (buildTable CO2_TONS_YEAR_DRIVING
        [⟨"A", Quantity.smul 2 qGal, Quantity.smul 1 qMi,
          (Quantity.smul 1 qMi).div qHr, Quantity.smul 1 qHr⟩,
         ⟨"A", Quantity.smul 1 qGal, Quantity.smul 1 qMi,
          (Quantity.smul 1 qMi).div qHr, Quantity.smul 1 qHr⟩]).bind
      (fun t => lookupTbl t "A") := by
  constructor
  · exact List.Perm.swap _ _ _
  · norm_num [buildTable, emissionsLoop, dictInsert, lookupTbl,
      computeEmissions, calculate_co2_per_hour, CO2_TONS_YEAR_DRIVING,
      KG_CO2_GAL, GALLONS_PER_YEAR_DRIVING, KG_CO2_PER_GAL_JP8,
      Quantity.mul, Quantity.div, Quantity.div?, Quantity.to, Quantity.smul,
      qKg, qGal, qYr, qMi, qHr, dimOf, scaleOf, UnitsC.mul, UnitsC.div,
      UnitsC.one, tonPerYrU, tonPerHourU]

/-- C7 amended: for sequences of specs with pairwise-distinct names,
building the table over any permutation yields the same entry for
every name; only the iteration order differs. -/
theorem buildTable_perm_invariant (annual : Quantity)
    (ps ps' : List PlaneCharacteristics) (hperm : ps.Perm ps')
    (hnodup : (ps.map PlaneCharacteristics.name).Nodup) (n : String) :
    (buildTable annual ps).bind (fun t => lookupTbl t n) =
      (buildTable annual ps').bind (fun t => lookupTbl t n) := by
  by_cases hall : ∀ p ∈ ps, (computeEmissions annual p).isSome
  · have hall' : ∀ p ∈ ps', (computeEmissions annual p).isSome :=
      fun p hp => hall p (hperm.mem_iff.mpr hp)
    rw [buildTable, buildTable, emissionsLoop_eq_foldl annual ps [] hall,
      emissionsLoop_eq_foldl annual ps' [] hall']
    simp only [Option.some_bind]
    rw [lookupTbl_foldl, lookupTbl_foldl,
      lastWithName_perm n ps ps' hperm hnodup]
  · push_neg at hall
    obtain ⟨p, hp, hnone⟩ := hall
    have hnone' : computeEmissions annual p = none := by
      rcases h : computeEmissions annual p with _ | e
      · rfl
      · rw [h] at hnone
        exact absurd rfl hnone
    rw [buildTable, buildTable,
      emissionsLoop_eq_none annual ps [] p hp hnone',
      emissionsLoop_eq_none annual ps' [] p (hperm.mem_iff.mp hp) hnone']

/-- Witness for C7 amended: two distinct-name planes, swapped. -/
theorem buildTable_perm_invariant_witness :
    (buildTable CO2_TONS_YEAR_DRIVING
        [⟨"A", Quantity.smul 1 qGal, Quantity.smul 1 qMi,
          (Quantity.smul 1 qMi).div qHr, Quantity.smul 1 qHr⟩,
         ⟨"B", Quantity.smul 2 qGal, Quantity.smul 1 qMi,
          (Quantity.smul 1 qMi).div qHr, Quantity.smul 1 qHr⟩]).bind
      (fun t => lookupTbl t "A") =
    (buildTable CO2_TONS_YEAR_DRIVING
        [⟨"B", Quantity.smul 2 qGal, Quantity.smul 1 qMi,
          (Quantity.smul 1 qMi).div qHr, Quantity.smul 1 qHr⟩,
         ⟨"A", Quantity.smul 1 qGal, Quantity.smul 1 qMi,
          (Quantity.smul 1 qMi).div qHr, Quantity.smul 1 qHr⟩]).bind
      (fun t => lookupTbl t "A") :=
  buildTable_perm_invariant CO2_TONS_YEAR_DRIVING _ _
    (List.Perm.swap _ _ _) (by simp) "A"

/-- C8. For an input sequence with distinct names, the iteration
order of the resulting table — hence the x-axis order of both bar
charts — equals the input order. -/
theorem buildTable_input_order (annual : Quantity)
    (ps : List PlaneCharacteristics) (t : List (String × CO2Emissions))
    (hnodup : (ps.map PlaneCharacteristics.name).Nodup)
    (h : buildTable annual ps = some t) :
    plot_plane_names t = ps.map PlaneCharacteristics.name := by
  have hall := buildTable_some_all_isSome annual ps t h
  rw [buildTable, emissionsLoop_eq_foldl annual ps [] hall] at h
  simp only [Option.some.injEq] at h
  subst h
  rw [plot_plane_names, keys_foldl annual ps [] (by simp) hnodup]
  simp

/-- Witness for C8: two distinct-name planes in input order. -/
theorem buildTable_input_order_witness :
    plot_plane_names
        ((buildTable CO2_TONS_YEAR_DRIVING
          [⟨"A", Quantity.smul 1 qGal, Quantity.smul 1 qMi,
            (Quantity.smul 1 qMi).div qHr, Quantity.smul 1 qHr⟩,
           ⟨"B", Quantity.smul 2 qGal, Quantity.smul 1 qMi,
            (Quantity.smul 1 qMi).div qHr, Quantity.smul 1 qHr⟩]).getD []) =
      ["A", "B"] := by
  have heq : buildTable CO2_TONS_YEAR_DRIVING
      [⟨"A", Quantity.smul 1 qGal, Quantity.smul 1 qMi,
        (Quantity.smul 1 qMi).div qHr, Quantity.smul 1 qHr⟩,
       ⟨"B", Quantity.smul 2 qGal, Quantity.smul 1 qMi,
        (Quantity.smul 1 qMi).div qHr, Quantity.smul 1 qHr⟩] =
      some [("A", ⟨⟨39 / 8000, tonPerHourU⟩,
          ⟨39 / 8000, { UnitsC.one with metricTon := 1 }⟩,
          ⟨65 / 58028, { UnitsC.one with yr := 1 }⟩⟩),
        ("B", ⟨⟨39 / 4000, tonPerHourU⟩,
          ⟨39 / 4000, { UnitsC.one with metricTon := 1 }⟩,
          ⟨65 / 29014, { UnitsC.one with yr := 1 }⟩⟩)] := by
    norm_num [buildTable, emissionsLoop, dictInsert,
      computeEmissions, calculate_co2_per_hour, CO2_TONS_YEAR_DRIVING,
      KG_CO2_GAL, GALLONS_PER_YEAR_DRIVING, KG_CO2_PER_GAL_JP8,
      Quantity.mul, Quantity.div, Quantity.div?, Quantity.to, Quantity.smul,
      qKg, qGal, qYr, qMi, qHr, dimOf, scaleOf, UnitsC.mul, UnitsC.div,
      UnitsC.one, tonPerYrU, tonPerHourU]
    simp
  have h := buildTable_input_order CO2_TONS_YEAR_DRIVING
    [⟨"A", Quantity.smul 1 qGal, Quantity.smul 1 qMi,
      (Quantity.smul 1 qMi).div qHr, Quantity.smul 1 qHr⟩,
     ⟨"B", Quantity.smul 2 qGal, Quantity.smul 1 qMi,
      (Quantity.smul 1 qMi).div qHr, Quantity.smul 1 qHr⟩] _ (by simp) heq
  rw [heq]
  simpa using h

/-- C9. Building the table never raises on duplicate names: when
every spec's computation succeeds and `p` is the last spec bearing
name `n`, the table is produced, holds exactly one entry for `n`,
and that entry is `p`'s result — earlier same-name entries are
silently overwritten. -/
theorem buildTable_duplicate_overwrite (annual : Quantity)
    (ps : List PlaneCharacteristics) (n : String) (p : PlaneCharacteristics)
    (hall : ∀ q ∈ ps, (computeEmissions annual q).isSome)
    (hlast : lastWithName ps n = some p) :
    ∃ t, buildTable annual ps = some t ∧
      lookupTbl t n = computeEmissions annual p ∧
      (t.map Prod.fst).Nodup ∧ (t.map Prod.fst).count n = 1 := by
  refine ⟨ps.foldl (tableStep annual) [],
    by rw [buildTable]; exact emissionsLoop_eq_foldl annual ps [] hall,
    ?_, nodup_keys_foldl annual ps [] (by simp), ?_⟩
  · rw [lookupTbl_foldl, hlast]
    simp only [Option.elim]
    have hp := lastWithName_mem n ps p hlast
    have hs := hall p hp.1
    rcases he : computeEmissions annual p with _ | e
    · rw [he] at hs
      exact absurd hs (by simp)
    · rw [computeD, he]
      rfl
  · have hmem : n ∈ (ps.foldl (tableStep annual) []).map Prod.fst := by
      apply mem_keys_of_lookupTbl _ n (computeD annual p)
      rw [lookupTbl_foldl, hlast]
      rfl
    exact List.count_eq_one_of_mem
      (nodup_keys_foldl annual ps [] (by simp)) hmem

/-- Witness for C9: two specs both named "A"; the table keeps one
entry, holding the second spec's result. -/
theorem buildTable_duplicate_overwrite_witness :
    ∃ t, buildTable CO2_TONS_YEAR_DRIVING
        [⟨"A", Quantity.smul 1 qGal, Quantity.smul 1 qMi,
          (Quantity.smul 1 qMi).div qHr, Quantity.smul 1 qHr⟩,
         ⟨"A", Quantity.smul 2 qGal, Quantity.smul 1 qMi,
          (Quantity.smul 1 qMi).div qHr, Quantity.smul 1 qHr⟩] = some t ∧
      lookupTbl t "A" = computeEmissions CO2_TONS_YEAR_DRIVING
        ⟨"A", Quantity.smul 2 qGal, Quantity.smul 1 qMi,
          (Quantity.smul 1 qMi).div qHr, Quantity.smul 1 qHr⟩ ∧
      (t.map Prod.fst).Nodup ∧ (t.map Prod.fst).count "A" = 1 :=
  buildTable_duplicate_overwrite CO2_TONS_YEAR_DRIVING _ "A" _
    (by
      intro q hq
      fin_cases hq
      · have h1 : computeEmissions CO2_TONS_YEAR_DRIVING
            ⟨"A", Quantity.smul 1 qGal, Quantity.smul 1 qMi,
              (Quantity.smul 1 qMi).div qHr, Quantity.smul 1 qHr⟩ =
            some ⟨⟨39 / 8000, tonPerHourU⟩,
              ⟨39 / 8000, { UnitsC.one with metricTon := 1 }⟩,
              ⟨65 / 58028, { UnitsC.one with yr := 1 }⟩⟩ := by
          norm_num [computeEmissions, calculate_co2_per_hour,
            CO2_TONS_YEAR_DRIVING, KG_CO2_GAL, GALLONS_PER_YEAR_DRIVING,
            KG_CO2_PER_GAL_JP8, Quantity.mul, Quantity.div, Quantity.div?,
            Quantity.to, Quantity.smul, qKg, qGal, qYr, qMi, qHr, dimOf,
            scaleOf, UnitsC.mul, UnitsC.div, UnitsC.one, tonPerYrU,
            tonPerHourU]
        rw [h1]
        rfl
      · have h2 : computeEmissions CO2_TONS_YEAR_DRIVING
            ⟨"A", Quantity.smul 2 qGal, Quantity.smul 1 qMi,
              (Quantity.smul 1 qMi).div qHr, Quantity.smul 1 qHr⟩ =
            some ⟨⟨39 / 4000, tonPerHourU⟩,
              ⟨39 / 4000, { UnitsC.one with metricTon := 1 }⟩,
              ⟨65 / 29014, { UnitsC.one with yr := 1 }⟩⟩ := by
          norm_num [computeEmissions, calculate_co2_per_hour,
            CO2_TONS_YEAR_DRIVING, KG_CO2_GAL, GALLONS_PER_YEAR_DRIVING,
            KG_CO2_PER_GAL_JP8, Quantity.mul, Quantity.div, Quantity.div?,
            Quantity.to, Quantity.smul, qKg, qGal, qYr, qMi, qHr, dimOf,
            scaleOf, UnitsC.mul, UnitsC.div, UnitsC.one, tonPerYrU,
            tonPerHourU]
        rw [h2]
        rfl)
    (by simp [lastWithName])

end PlaneCarbon
